import Mathlib

/-!
Shallow embedding of src/api.py: the NewPipe web-api `DataJsonHandler`, a
tornado request handler that serves an aggregated JSON document assembled
from five upstream fetches (plus one conditional chained fetch), behind a
TTL cache with a failure-backoff check and a lock.

Conventions of the embedding:
* Timestamps are integers (seconds); `datetime.now()` becomes an explicit
  parameter, `timedelta(hours=1)` becomes `timeout = 3600`.
* A Python exception that the source catches is an `Except.error` consumed
  at the catch site; an exception the source does not catch surfaces as the
  `RefreshOutcome.raised` outcome of the whole refresh.
* External parsing libraries (json.loads, lxml html.fromstring/cssselect)
  are opaque collaborators: a fetched body is represented by the outcome the
  library call in the source would produce on it (the source makes no other
  use of those bodies).  Bodies that the source parses itself with `re`,
  `split` and `int` (the f-droid metadata and the chained build.gradle file)
  are kept as strings and parsed by faithful Lean translations.
-/

namespace Api

/-- JSON values (the source never produces floating point numbers of its
own; upstream float fields are outside the model). -/
inductive Json where
  | null
  | bool (b : Bool)
  | int (n : Int)
  | str (s : String)
  | arr (elems : List Json)
  | obj (fields : List (String × Json))

/-- Python subscript `value[key]` on a decoded JSON value: KeyError when the
key is absent, TypeError when the value is not an object. -/
def Json.getKey : Json → String → Except String Json
  | .obj fields, k =>
    match fields.lookup k with
    | some v => .ok v
    | none => .error "KeyError"
  | _, _ => .error "TypeError"

/-- Digit run to a natural number. -/
def digitsVal (cs : List Char) : Nat :=
  cs.foldl (fun acc c => acc * 10 + (c.toNat - 48)) 0

/-- ASCII whitespace recognised by Python `str.strip` (the unicode spaces of
the full Python semantics are outside the model). -/
def charIsSpace (c : Char) : Bool :=
  c = ' ' || c = '\t' || c = '\n' || c = '\r'

def dropLeadingSpace : List Char → List Char
  | [] => []
  | c :: cs => if charIsSpace c then dropLeadingSpace cs else c :: cs

/-- Strip whitespace from both ends. -/
def trimChars (cs : List Char) : List Char :=
  (dropLeadingSpace (dropLeadingSpace cs).reverse).reverse

/-- Python `int(str)`: strip surrounding whitespace, an optional sign, then a
nonempty run of ASCII digits; anything else raises ValueError.  (Underscore
digit grouping of newer Pythons is not modelled.) -/
def pyIntOfString (s : String) : Except String Int :=
  match trimChars s.toList with
  | [] => .error "ValueError"
  | c :: rest =>
    let sign : Int := if c = '-' then -1 else 1
    let digits := if c = '-' || c = '+' then rest else c :: rest
    if digits.isEmpty then .error "ValueError"
    else if digits.all Char.isDigit then .ok (sign * (digitsVal digits : Int))
    else .error "ValueError"

/-- Python `int()` applied to a decoded JSON value. -/
def pyIntOfJson : Json → Except String Int
  | .int n => .ok n
  | .bool b => .ok (if b then 1 else 0)
  | .str s => pyIntOfString s
  | _ => .error "TypeError"

/-- Python `s.split(sep)` for a single-character separator (the only kind
the source uses): splits on every occurrence; never yields an empty list. -/
def splitCharAux (sep : Char) : List Char → List Char → List (List Char)
  | [], acc => [acc.reverse]
  | c :: cs, acc =>
    if c = sep then acc.reverse :: splitCharAux sep cs []
    else splitCharAux sep cs (c :: acc)

def splitChar (sep : Char) (s : List Char) : List (List Char) :=
  splitCharAux sep s []

/-- Everything after the first occurrence of `lit` in `line`, when there is
one. -/
def findTail (lit : List Char) : List Char → Option (List Char)
  | [] => none
  | c :: cs =>
    if lit.isPrefixOf (c :: cs) then some (List.drop (lit.length - 1) cs)
    else findTail lit cs

/-- Python `re.findall` for a pattern of the shape `lit(.*)`: for each line
containing `lit`, the capture runs from just after the first occurrence of
`lit` to the end of the line (the dot does not match a newline, and the
match consumes the rest of the line). -/
def re_findall_tail (lit : String) (s : String) : List String :=
  ((splitChar '\n' s.toList).filterMap (findTail lit.toList)).map String.mk

/-- Python `list[-1]`: IndexError on an empty list. -/
def pyLast {α : Type} (l : List α) : Except String α :=
  match l.getLast? with
  | some x => .ok x
  | none => .error "IndexError"

/-- Python `list[0]`: IndexError on an empty list. -/
def pyHead {α : Type} (l : List α) : Except String α :=
  match l.head? with
  | some x => .ok x
  | none => .error "IndexError"

/-- Python `s.split(sep)[-1]` for a single-character separator; `split`
never yields an empty list, so this never raises. -/
def py_split_last (s : String) (sep : Char) : String :=
  String.mk ((splitChar sep s.toList).getLastD [])

/-- A tornado HTTPResponse, polymorphic in how the body is represented.
`transportError` records a DNS/connect/timeout style failure. -/
structure HTTPResponse (β : Type) where
  code : Nat
  body : Option β
  transportError : Option String
deriving DecidableEq

/-- tornado sets `response.error` for transport failures and for every
non-2xx status; with `raise_error=False` this flag is the only error
reporting, nothing is raised. -/
def HTTPResponse.has_error {β : Type} (r : HTTPResponse β) : Bool :=
  r.transportError.isSome || decide (r.code < 200) || decide (300 ≤ r.code)

/-- A tornado HTTPRequest: URL plus headers. -/
structure HTTPRequest where
  url : String
  headers : List (String × String)
deriving DecidableEq

/-- Lines 113-117: every outbound request carries the fixed (empty)
User-Agent identification header. -/
def make_request (url : String) : HTTPRequest :=
  { url := url, headers := [("User-Agent", "")] }

/-- Lines 119-121: `AsyncHTTPClient.fetch(request, raise_error=False)`
against a network model mapping each URL to the response it yields.  A
total function: HTTP-level errors (4xx/5xx) and transport failures come
back inside the `HTTPResponse` value, never as an exception.  Also returns
the list of requests put on the wire (exactly one). -/
def fetch (net : String → HTTPResponse String) (request : HTTPRequest) :
    HTTPResponse String × List HTTPRequest :=
  (net request.url, [request])

/-- Line 104. -/
def repo_url : String := "https://api.github.com/repos/TeamNewPipe/NewPipe"

/-- Lines 101-102: the releases URL template with org.schabi.newpipe
substituted, the only instantiation the source performs. -/
def stable_url : String :=
  "https://gitlab.com/fdroid/fdroiddata/raw/master/metadata/org.schabi.newpipe.txt"

/-- Line 106. -/
def release_github_url : String := "https://github.com/TeamNewPipe/NewPipe/releases/"

/-- Line 108. -/
def contributors_url : String := "https://github.com/TeamNewPipe/NewPipe"

/-- Lines 110-111. -/
def translations_url : String :=
  "https://hosted.weblate.org/api/components/newpipe/strings/translations/"

/-- The five core fetches, in the order of the `gen.multi` tuple
(lines 123-129). -/
def core_request_urls : List String :=
  [repo_url, stable_url, release_github_url, contributors_url, translations_url]

/-- Outcome of the three cssselect queries the source runs on the release
page (lines 156-184): for the apk query, the `href` attribute of each
matched tag (`get` yields Python None when the attribute is missing); for
the version and code queries, the `.text` of each matched element (None
possible). -/
structure ReleasePage where
  apkTags : List (Option String)
  versionTags : List (Option String)
  codeTags : List (Option String)
deriving DecidableEq

/-- Outcome of the contributors cssselect query (line 202): the `.text` of
each matched element. -/
structure ContributorsPage where
  numTags : List (Option String)
deriving DecidableEq

/-- The environment of one refresh attempt: the five core fetch responses
(bodies represented by the outcome of the parse the source applies to
them), and the network used for the chained build.gradle fetch. -/
structure RefreshEnv where
  repoResp : HTTPResponse (Except String Json)
  stableResp : HTTPResponse String
  releaseResp : HTTPResponse (Except String ReleasePage)
  contributorsResp : HTTPResponse (Except String ContributorsPage)
  translationsResp : HTTPResponse (Except String Json)
  net : String → HTTPResponse String

/-- True when at least one of the five core responses has its error flag
set (non-2xx status or transport failure). -/
def some_core_fetch_failed (env : RefreshEnv) : Bool :=
  env.repoResp.has_error || env.stableResp.has_error ||
  env.releaseResp.has_error || env.contributorsResp.has_error ||
  env.translationsResp.has_error

/-- The `for response in responses` validation loop (lines 131-134): index
of the first response whose `validate_response` fails, in `gen.multi`
order. -/
def first_failing_response (env : RefreshEnv) : Option Nat :=
  if env.repoResp.has_error then some 0
  else if env.stableResp.has_error then some 1
  else if env.releaseResp.has_error then some 2
  else if env.contributorsResp.has_error then some 3
  else if env.translationsResp.has_error then some 4
  else none

/-- `json.loads` applied to a fetched body: a missing body raises; otherwise
the parse outcome carried by the model is returned. -/
def json_loads_body : Option (Except String Json) → Except String Json
  | none => .error "TypeError"
  | some r => r

/-- `lxml.html.fromstring` applied to a fetched body: a missing body raises;
otherwise the parse outcome carried by the model is returned. -/
def fromstring_body {π : Type} : Option (Except String π) → Except String π
  | none => .error "ValueError"
  | some r => r

/-- Lines 139-150, `assemble_release_data(version_data)`: scrape version,
version code and apk link out of the f-droid metadata text.  Raises
IndexError when the text has no Build: line or no commit= line, ValueError
when the trailing code is not an integer; nothing here is guarded. -/
def assemble_release_data (version_data : String) : Except String Json :=
  let versions := re_findall_tail "commit=" version_data
  let version_codes := re_findall_tail "Build:" version_data
  match pyLast version_codes with
  | .error e => .error e
  | .ok vc_entry =>
    let version_code := py_split_last vc_entry ','
    match pyLast versions with
    | .error e => .error e
    | .ok version =>
      match pyIntOfString version_code with
      | .error e => .error e
      | .ok vc_int =>
        .ok (Json.obj [
          ("version", Json.str version),
          ("version_code", Json.int vc_int),
          ("apk", Json.str
            ("https://f-droid.org/repo/org.schabi.newpipe_" ++ version_code ++ ".apk"))])

/-- Lines 155-164: apk link from the release page; an empty selector result
or a missing href attribute (string concatenation with None raises, caught
by the bare except) degrades to the -1 sentinel. -/
def release_github_apk_val (page : ReleasePage) : Json :=
  match page.apkTags with
  | [] => Json.int (-1)
  | some href :: _ => Json.str ("https://github.com" ++ href)
  | none :: _ => Json.int (-1)

/-- Lines 166-175: version string from the release page; an empty selector
result degrades to -1, while a matched tag with None text stays None
(the attribute read cannot raise, so the except never fires). -/
def release_github_version_val (page : ReleasePage) : Json :=
  match page.versionTags with
  | [] => Json.int (-1)
  | some s :: _ => Json.str s
  | none :: _ => Json.null

/-- Line 188-189: URL of the chained build.gradle fetch, built from the git
hash scraped off the release page. -/
def gradle_url (git_hash : String) : String :=
  "https://raw.githubusercontent.com/TeamNewPipe/NewPipe/" ++ git_hash ++
    "/app/build.gradle"

/-- Lines 191-196: body decode, `re.findall("versionCode(.*)")`, `[0]`,
`split(" ")[-1]`.  Every failure here is caught by the bare except of
lines 183-198. -/
def gradle_extract (r : HTTPResponse String) : Except String String :=
  match r.body with
  | none => .error "TypeError"
  | some body =>
    match pyHead (re_findall_tail "versionCode" body) with
    | .error e => .error e
    | .ok first => .ok (py_split_last first ' ')

/-- Lines 177-198: the version-code scrape with the conditional chained
fetch.  Returns the field value (the scraped string, or the -1 sentinel on
any caught failure, including a missing code tag, a None hash text, a
failed fetch and an unparseable gradle file) together with the chained
requests put on the wire. -/
def release_github_version_code_fetch (page : ReleasePage)
    (net : String → HTTPResponse String) : Json × List HTTPRequest :=
  match page.codeTags with
  | [] => (Json.int (-1), [])
  | none :: _ => (Json.int (-1), [])
  | some git_hash :: _ =>
    let fr := fetch net (make_request (gradle_url git_hash))
    match gradle_extract fr.1 with
    | .ok s => (Json.str s, fr.2)
    | .error _ => (Json.int (-1), fr.2)

/-- Lines 200-209: contributors count; anything but exactly one matched tag,
a None text, or a non-integer text degrades to -1 (the int conversion is
inside the try). -/
def contributors_count_val (page : ContributorsPage) : Int :=
  match page.numTags with
  | [some s] =>
    (match pyIntOfString s with
     | .ok n => n
     | .error _ => -1)
  | [none] => -1
  | _ => -1

/-- The shape of the final document (lines 213-233) once every component
value is available. -/
def assembled_doc (stargazers watchers forks : Json)
    (contributors translations_count : Int)
    (gh_version : Json) (gh_version_code : Int) (gh_apk : Json)
    (fdroid_stable : Json) : Json :=
  Json.obj [
    ("stats", Json.obj [
      ("stargazers", stargazers),
      ("watchers", watchers),
      ("forks", forks),
      ("contributors", Json.int contributors),
      ("translations", Json.int translations_count)]),
    ("flavors", Json.obj [
      ("github", Json.obj [("stable", Json.obj [
        ("version", gh_version),
        ("version_code", Json.int gh_version_code),
        ("apk", gh_apk)])]),
      ("fdroid", Json.obj [("stable", fdroid_stable)])])]

/-- Lines 213-233: the `data` dict literal, with the raising subexpressions
evaluated in source order: the three repo lookups, the translations lookup
and its int conversion, the unguarded `int(release_github_version_code)`,
and finally `assemble_release_data(stable_data)`. -/
def build_document (repo : Json) (contributors : Int) (translations : Json)
    (gh_version gh_version_code gh_apk : Json) (stable_body : Option String) :
    Except String Json :=
  match repo.getKey "stargazers_count" with
  | .error e => .error e
  | .ok stargazers =>
  match repo.getKey "subscribers_count" with
  | .error e => .error e
  | .ok watchers =>
  match repo.getKey "forks_count" with
  | .error e => .error e
  | .ok forks =>
  match translations.getKey "count" with
  | .error e => .error e
  | .ok count_val =>
  match pyIntOfJson count_val with
  | .error e => .error e
  | .ok translations_count =>
  match pyIntOfJson gh_version_code with
  | .error e => .error e
  | .ok gh_vc =>
  match (match stable_body with
         | none => Except.error "TypeError"
         | some b => assemble_release_data b) with
  | .error e => .error e
  | .ok fdroid_stable =>
    .ok (assembled_doc stargazers watchers forks contributors translations_count
      gh_version gh_vc gh_apk fdroid_stable)

/-- Lines 136-233 after all five validations passed: the assembly sequence
in source order (repo json.loads, release page fromstring, the three
release-page scrapes including the chained fetch, contributors fromstring
and scrape, translations json.loads, then the document literal).  Returns
the assembly outcome and the chained requests issued before the outcome was
reached. -/
def run_assembly (env : RefreshEnv) : Except String Json × List HTTPRequest :=
  match json_loads_body env.repoResp.body with
  | .error e => (.error e, [])
  | .ok repo =>
    match fromstring_body env.releaseResp.body with
    | .error e => (.error e, [])
    | .ok rpage =>
      let gh_apk := release_github_apk_val rpage
      let gh_version := release_github_version_val rpage
      let vcp := release_github_version_code_fetch rpage env.net
      match fromstring_body env.contributorsResp.body with
      | .error e => (.error e, vcp.2)
      | .ok cpage =>
        let contributors := contributors_count_val cpage
        match json_loads_body env.translationsResp.body with
        | .error e => (.error e, vcp.2)
        | .ok translations =>
          (build_document repo contributors translations gh_version vcp.1 gh_apk
            env.stableResp.body, vcp.2)

/-- Outcome of one refresh attempt. -/
inductive RefreshOutcome where
  | fetchFailure (failing_index : Nat)
  | raised (err : String)
  | success (doc : Json)

/-- Lines 99-233: the body of the refresh once the lock is held: the five
core fetches are issued (fan-out), the validation loop aborts on the first
error, otherwise the assembly sequence runs; an exception the source does
not catch becomes the `raised` outcome.  Returns the outcome together with
every request put on the wire. -/
def run_refresh (env : RefreshEnv) : RefreshOutcome × List HTTPRequest :=
  let core := core_request_urls.map make_request
  match first_failing_response env with
  | some i => (.fetchFailure i, core)
  | none =>
    match run_assembly env with
    | (.error e, chained) => (.raised e, core ++ chained)
    | (.ok doc, chained) => (.success doc, core ++ chained)

/-- Line 28: `_timeout = timedelta(hours=1)`, in seconds.  The same constant
serves as the cache TTL and as the failure-backoff window. -/
def timeout : Int := 3600

/-- The class-level mutable state of `DataJsonHandler` (lines 28-41):
`_last_request` (timestamp of the last successful refresh),
`_cached_response`, and `_last_failed_request`.  The field is an `Option`
because the source guards it with `is not None`, although no execution ever
stores None in it. -/
structure HandlerState where
  last_request : Int
  cached_response : Option Json
  last_failed_request : Option Int

/-- Class-attribute initialisation (lines 28-41): both timestamps are set
two timeouts before their respective `datetime.now()` calls at import time
(`boot_success` and `boot_failure`, microseconds apart in reality), and the
cache starts absent. -/
def startup_state (boot_success boot_failure : Int) : HandlerState :=
  { last_request := boot_success - 2 * timeout,
    cached_response := none,
    last_failed_request := some (boot_failure - 2 * timeout) }

/-- Lines 51-61, `is_request_outdated`: True when the cache is absent or the
last success is strictly older than the timeout. -/
def is_request_outdated (s : HandlerState) (now : Int) : Bool :=
  if s.cached_response.isNone then true
  else if timeout < now - s.last_request then true
  else false

/-- Lines 68-69: the backoff condition of `get`,
`_last_failed_request is not None and (now - _last_failed_request) < _timeout`. -/
def backoff_active (s : HandlerState) (now : Int) : Bool :=
  match s.last_failed_request with
  | some f => decide (now - f < timeout)
  | none => false

/-- The three-way decision of `get` (lines 63-80), in source order: backoff
check first, then the freshness check, then refresh. -/
inductive GateAction where
  | backoffReject
  | refresh
  | serveCached
deriving DecidableEq

def gate_action (s : HandlerState) (now : Int) : GateAction :=
  if backoff_active s now then .backoffReject
  else if is_request_outdated s now then .refresh
  else .serveCached

/-- The response a handler produces.  tornado distinguishes two error
paths: `send_error(code)` clears the response, calls `set_status(code)` and
then writes the error page, so the wire status really is `code`
(`errorResp`); calling `write_error(code)` directly, as the backoff branch
of `get` does, only formats the error page for `code` and finishes — it
never calls `set_status`, so the response keeps whatever headers were
already added and goes out with the default wire status 200
(`writeErrorPage`).  An uncaught exception escaping the coroutine makes
tornado report a generic 500 (and, in this handler, the lock is never
released).  A written document keeps the headers the handler set. -/
inductive Response where
  | errorResp (status : Nat)
  | writeErrorPage (pageCode : Nat) (headers : List (String × String))
  | uncaught (err : String)
  | doc (payload : Json) (headers : List (String × String))

/-- Lines 47-49, `add_default_headers`. -/
def default_headers : List (String × String) :=
  [("Content-Type", "text/plain"),
   ("Access-Control-Allow-Origin", "newpipe.schabi.org")]

/-- The observable effect of one request: the class state afterwards, the
response written, and every upstream request put on the wire. -/
structure StepResult where
  state : HandlerState
  response : Response
  issued : List HTTPRequest

/-- Lines 246-250, `update_cache`: store the document and advance
`_last_request`; nothing else is touched. -/
def update_cache (s : HandlerState) (data : Json) (now : Int) : HandlerState :=
  { s with cached_response := some data, last_request := now }

/-- Lines 95-244, `fetch_data_and_assemble_response`: the lock is acquired
and the refresh body runs unconditionally — there is no re-check of
freshness after the acquisition.  `completion_time` stands for the
`datetime.now()` calls made when the refresh finishes.  On a validation
failure the lock is released, `_last_failed_request` advances and a 500 is
sent; on success the cache is updated, the lock released and the document
written; on an uncaught assembly exception no state field is touched and
the lock stays held. -/
def fetch_data_and_assemble_response (s : HandlerState) (env : RefreshEnv)
    (completion_time : Int) : StepResult :=
  match run_refresh env with
  | (.fetchFailure _, issued) =>
    { state := { s with last_failed_request := some completion_time },
      response := .errorResp 500, issued := issued }
  | (.raised e, issued) =>
    { state := s, response := .uncaught e, issued := issued }
  | (.success data, issued) =>
    { state := update_cache s data completion_time,
      response := .doc data default_headers, issued := issued }

/-- The branch of `get` selected by `gate_action`: backoff rejection calls
`add_default_headers()` and then `write_error(500)` directly (lines 72-73)
— the error page for 500 is written with the default headers still in
place, but `set_status` is never called, so the wire status stays 200 —
with no upstream traffic and no state change; refresh runs
`fetch_data_and_assemble_response`; the fresh path writes the cached
document verbatim with the default headers. -/
def serve_phase (s : HandlerState) (a : GateAction) (env : RefreshEnv)
    (completion_time : Int) : StepResult :=
  match a with
  | .backoffReject =>
    { state := s, response := .writeErrorPage 500 default_headers, issued := [] }
  | .refresh => fetch_data_and_assemble_response s env completion_time
  | .serveCached =>
    { state := s,
      response := .doc (s.cached_response.getD Json.null) default_headers,
      issued := [] }

/-- Lines 63-80, `get`: one inbound request handled to completion at time
`now`, with `completion_time` the time a triggered refresh finishes. -/
def get (s : HandlerState) (now : Int) (env : RefreshEnv)
    (completion_time : Int) : StepResult :=
  serve_phase s (gate_action s now) env completion_time

/-- Two requests arrive at time `t` and both execute the synchronous prefix
of `get` (backoff check and freshness check) before either upstream fetch
resolves — the tornado IO loop runs each handler up to its first yield
(the lock acquisition) atomically, so both gate decisions read the state as
of time `t`.  The lock then serialises the two coroutine bodies: the second
refresher proceeds only after the first released the lock, against the
state the first left behind. -/
def two_concurrent_requests (s : HandlerState) (t : Int)
    (env1 env2 : RefreshEnv) (tc1 tc2 : Int) : StepResult × StepResult :=
  let a1 := gate_action s t
  let a2 := gate_action s t
  let r1 := serve_phase s a1 env1 tc1
  let r2 := serve_phase r1.state a2 env2 tc2
  (r1, r2)

/-- A concrete healthy refresh environment, used to evaluate the model on
closed inputs: all five fetches return 200 with well-formed bodies, the
chained gradle fetch succeeds. -/
def repo_json_sample : Json :=
  Json.obj [("stargazers_count", Json.int 5000),
            ("subscribers_count", Json.int 300),
            ("forks_count", Json.int 700)]

def release_page_sample : ReleasePage :=
  { apkTags := [some "/TeamNewPipe/NewPipe/releases/download/v0.19.8/NewPipe_v0.19.8.apk"],
    versionTags := [some "v0.19.8"],
    codeTags := [some "abc123"] }

def env_good : RefreshEnv :=
  { repoResp := { code := 200, body := some (.ok repo_json_sample), transportError := none },
    stableResp := { code := 200, body := some "commit=0.19.8\nBuild:0.19.8,953", transportError := none },
    releaseResp := { code := 200, body := some (.ok release_page_sample), transportError := none },
    contributorsResp := { code := 200, body := some (.ok { numTags := [some "661"] }), transportError := none },
    translationsResp := { code := 200, body := some (.ok (Json.obj [("count", Json.int 73)])), transportError := none },
    net := fun _ => { code := 200, body := some "versionCode 953", transportError := none } }

/-- The document the model assembles from `env_good`. -/
def doc_good : Json :=
  assembled_doc (Json.int 5000) (Json.int 300) (Json.int 700) 661 73
    (Json.str "v0.19.8") 953
    (Json.str "https://github.com/TeamNewPipe/NewPipe/releases/download/v0.19.8/NewPipe_v0.19.8.apk")
    (Json.obj [("version", Json.str "0.19.8"), ("version_code", Json.int 953),
               ("apk", Json.str "https://f-droid.org/repo/org.schabi.newpipe_953.apk")])

/-- The requests a fully successful refresh against `env_good` issues. -/
def issued_good : List HTTPRequest :=
  core_request_urls.map make_request ++ [make_request (gradle_url "abc123")]

/-- `env_good` with the contributors fetch answering 503: one core fetch
fails. -/
def env_fetch_fail : RefreshEnv :=
  { env_good with
    contributorsResp := { code := 503, body := none, transportError := none } }

/-- `env_good` with the chained gradle fetch answering 404 with an error
page (its parse then finds no versionCode line). -/
def env_chained_fail : RefreshEnv :=
  { env_good with
    net := fun _ => { code := 404, body := some "404: Not Found", transportError := none } }

/-- `env_good` with an f-droid metadata body that has no Build: line. -/
def env_bad_stable : RefreshEnv :=
  { env_good with
    stableResp := { code := 200, body := some "hello", transportError := none } }

/-- All five core fetches succeed and the chained fetch fails, but the
f-droid metadata has no Build: line. -/
def env_chained_fail_bad_stable : RefreshEnv :=
  { env_chained_fail with
    stableResp := { code := 200, body := some "hello", transportError := none } }

/-- A stale startup-like state: cache absent, both timestamps two timeouts
in the past relative to time 0. -/
def s_stale : HandlerState := startup_state 0 0

/-- The f-droid stable entry assembled from the sample metadata body. -/
def fdroid_stable_sample : Json :=
  Json.obj [("version", Json.str "0.19.8"), ("version_code", Json.int 953),
            ("apk", Json.str "https://f-droid.org/repo/org.schabi.newpipe_953.apk")]

/-- A state whose last failure is recent relative to time 100. -/
def s_backoff : HandlerState :=
  { last_request := -7200, cached_response := none, last_failed_request := some 0 }

/-- A state holding a fresh cached document relative to time 50. -/
def s_fresh : HandlerState :=
  { last_request := 0, cached_response := some doc_good,
    last_failed_request := some (-7200) }

/-- Helper: the validation loop finds no failing response exactly when none
of the five core responses has its error flag set. -/
theorem first_failing_none_iff (env : RefreshEnv) :
    first_failing_response env = none ↔ some_core_fetch_failed env = false := by
  unfold first_failing_response some_core_fetch_failed
  cases h1 : env.repoResp.has_error <;> cases h2 : env.stableResp.has_error <;>
    cases h3 : env.releaseResp.has_error <;> cases h4 : env.contributorsResp.has_error <;>
      cases h5 : env.translationsResp.has_error <;> simp

/-- C1: the single-flight property fails on the code.  Two requests that
arrive while the cache is stale both pass the gate before the first refresh
resolves, and `fetch_data_and_assemble_response` never re-checks freshness
after acquiring the lock, so the second request runs a full refresh of its
own once the lock is released: with every upstream healthy, twelve upstream
requests are issued (two full sets of the five core fetches plus two
chained fetches, the repo endpoint being hit twice) instead of the six of a
single shared refresh.  This contradicts the comment at src/api.py line 36,
which states the intent that GitHub be requested only once when multiple
requests are made in parallel. -/
theorem two_concurrent_stale_requests_fetch_twice :
    ((two_concurrent_requests s_stale 0 env_good env_good 1 2).1.issued ++
      (two_concurrent_requests s_stale 0 env_good env_good 1 2).2.issued).countP
        (fun r => r.url == repo_url) = 2 ∧
    ((two_concurrent_requests s_stale 0 env_good env_good 1 2).1.issued ++
      (two_concurrent_requests s_stale 0 env_good env_good 1 2).2.issued).length = 12 ∧
    (two_concurrent_requests s_stale 0 env_good env_good 1 2).1.issued =
      core_request_urls.map make_request ++ [make_request (gradle_url "abc123")] ∧
    (two_concurrent_requests s_stale 0 env_good env_good 1 2).2.issued =
      core_request_urls.map make_request ++ [make_request (gradle_url "abc123")] :=
  ⟨rfl, rfl, rfl, rfl⟩

/-- C2: when at least one of the five core fetches fails (non-2xx status or
transport error), the refresh fails as a whole: the outcome is a fetch
failure (so the assembler is never reached), the only requests issued are
the five core ones (no chained fetch), `_last_failed_request` advances to
the completion time, the caller receives a 500, and both the cached
document and `_last_request` are left unchanged. -/
theorem core_fetch_failure_aborts_refresh (s : HandlerState) (env : RefreshEnv)
    (tc : Int) (h : some_core_fetch_failed env = true) :
    (∃ i, (run_refresh env).1 = RefreshOutcome.fetchFailure i) ∧
    fetch_data_and_assemble_response s env tc =
      { state := { s with last_failed_request := some tc },
        response := Response.errorResp 500,
        issued := core_request_urls.map make_request } := by
  cases h2 : first_failing_response env with
  | none =>
    rw [first_failing_none_iff] at h2
    simp [h] at h2
  | some i =>
    unfold fetch_data_and_assemble_response run_refresh
    rw [h2]
    exact ⟨⟨i, rfl⟩, rfl⟩

/-- Witness for C2 at a concrete environment whose contributors fetch
answers 503. -/
theorem core_fetch_failure_aborts_refresh_witness :
    some_core_fetch_failed env_fetch_fail = true ∧
    ((∃ i, (run_refresh env_fetch_fail).1 = RefreshOutcome.fetchFailure i) ∧
      fetch_data_and_assemble_response s_stale env_fetch_fail 10 =
        { state := { s_stale with last_failed_request := some 10 },
          response := Response.errorResp 500,
          issued := core_request_urls.map make_request }) :=
  ⟨rfl, core_fetch_failure_aborts_refresh s_stale env_fetch_fail 10 rfl⟩

/-- C9: `update_cache` stores the document and advances `_last_request` to
the current time while leaving `_last_failed_request` untouched, and
consequently a successful refresh changes only those two fields: the
timestamp of the most recent failure is never cleared by a later
success. -/
theorem update_cache_mutates_only_cache_and_success_time (s : HandlerState)
    (d doc : Json) (now tc : Int) (env : RefreshEnv) (issued : List HTTPRequest) :
    update_cache s d now =
      { last_request := now, cached_response := some d,
        last_failed_request := s.last_failed_request } ∧
    (run_refresh env = (RefreshOutcome.success doc, issued) →
      (fetch_data_and_assemble_response s env tc).state =
        { last_request := tc, cached_response := some doc,
          last_failed_request := s.last_failed_request }) := by
  constructor
  · rfl
  · intro hr
    unfold fetch_data_and_assemble_response
    rw [hr]
    rfl

/-- Witness for C9: a successful refresh from the stale startup state keeps
the old failure timestamp. -/
theorem update_cache_mutates_only_cache_and_success_time_witness :
    (fetch_data_and_assemble_response s_stale env_good 5).state =
      { last_request := 5, cached_response := some doc_good,
        last_failed_request := s_stale.last_failed_request } :=
  (update_cache_mutates_only_cache_and_success_time s_stale doc_good doc_good 5 5
    env_good issued_good).2 rfl

/-- C10: at startup the cache is absent and both timestamps sit two
timeouts in the past, so any first request at or after boot passes the
backoff check and takes the refresh branch. -/
theorem startup_first_request_triggers_refresh (b1 b2 now tc : Int)
    (env : RefreshEnv) (h : b2 ≤ now) :
    (startup_state b1 b2).cached_response = none ∧
    (startup_state b1 b2).last_request = b1 - 2 * timeout ∧
    (startup_state b1 b2).last_failed_request = some (b2 - 2 * timeout) ∧
    backoff_active (startup_state b1 b2) now = false ∧
    gate_action (startup_state b1 b2) now = GateAction.refresh ∧
    get (startup_state b1 b2) now env tc =
      fetch_data_and_assemble_response (startup_state b1 b2) env tc := by
  have hb : backoff_active (startup_state b1 b2) now = false := by
    show decide (now - (b2 - 2 * timeout) < timeout) = false
    simp only [decide_eq_false_iff_not, timeout]
    omega
  have hg : gate_action (startup_state b1 b2) now = GateAction.refresh := by
    unfold gate_action
    rw [hb]
    rfl
  refine ⟨rfl, rfl, rfl, hb, hg, ?_⟩
  unfold get
  rw [hg]
  rfl

/-- Witness for C10 at boot time 0 with a request at time 0. -/
theorem startup_first_request_triggers_refresh_witness :
    gate_action (startup_state 0 0) 0 = GateAction.refresh ∧
    get (startup_state 0 0) 0 env_good 3 =
      fetch_data_and_assemble_response (startup_state 0 0) env_good 3 :=
  ⟨(startup_first_request_triggers_refresh 0 0 0 3 env_good (by decide)).2.2.2.2.1,
   (startup_first_request_triggers_refresh 0 0 0 3 env_good (by decide)).2.2.2.2.2⟩

/-- C5: a request arriving when a cached document exists, the last success
is within the timeout, and the backoff check does not fire, issues no
upstream request, returns the cached document unchanged with the default
headers, and leaves every state field exactly as it was. -/
theorem fresh_cache_request_serves_cached_without_mutation (s : HandlerState)
    (now tc : Int) (env : RefreshEnv) (d : Json)
    (h_backoff : backoff_active s now = false)
    (h_cache : s.cached_response = some d)
    (h_fresh : now - s.last_request ≤ timeout) :
    get s now env tc =
      { state := s, response := Response.doc d default_headers, issued := [] } := by
  have ho : is_request_outdated s now = false := by
    unfold is_request_outdated
    rw [h_cache]
    simp [not_lt.mpr h_fresh]
  have hg : gate_action s now = GateAction.serveCached := by
    unfold gate_action
    rw [h_backoff, ho]
    rfl
  unfold get
  rw [hg]
  unfold serve_phase
  rw [h_cache]
  rfl

/-- Witness for C5: a request at time 50 against a cache stored at time 0. -/
theorem fresh_cache_request_serves_cached_without_mutation_witness :
    get s_fresh 50 env_good 51 =
      { state := s_fresh, response := Response.doc doc_good default_headers,
        issued := [] } :=
  fresh_cache_request_serves_cached_without_mutation s_fresh 50 51 env_good doc_good
    rfl rfl (by decide)

/-- C6: with a recorded last failure, the request is rejected by the
backoff check exactly when `now - lastFailureAt` is strictly below the
window; the check runs before the freshness check and before the lock
(the equivalence holds for every cache state, and a rejected request gets
the 500 error page written immediately, with no upstream request and no
state change); at or after the boundary the request is never rejected
and, if the cache is stale, takes the refresh branch. -/
theorem backoff_rejects_iff_within_window (s : HandlerState) (now f : Int)
    (env : RefreshEnv) (tc : Int) (h : s.last_failed_request = some f) :
    (gate_action s now = GateAction.backoffReject ↔ now - f < timeout) ∧
    (now - f < timeout →
      get s now env tc =
        { state := s, response := Response.writeErrorPage 500 default_headers,
          issued := [] }) ∧
    (timeout ≤ now - f → gate_action s now ≠ GateAction.backoffReject) ∧
    (timeout ≤ now - f → is_request_outdated s now = true →
      gate_action s now = GateAction.refresh) := by
  have hb : backoff_active s now = decide (now - f < timeout) := by
    unfold backoff_active
    rw [h]
  by_cases hc : now - f < timeout
  · have hg : gate_action s now = GateAction.backoffReject := by
      unfold gate_action
      rw [hb]
      simp [hc]
    refine ⟨⟨fun _ => hc, fun _ => hg⟩, fun _ => ?_,
      fun hle => absurd hc (not_lt.mpr hle), fun hle _ => absurd hc (not_lt.mpr hle)⟩
    unfold get
    rw [hg]
    rfl
  · have hg : gate_action s now =
        (if is_request_outdated s now then GateAction.refresh else GateAction.serveCached) := by
      unfold gate_action
      rw [hb]
      simp [hc]
    refine ⟨⟨fun hgr => ?_, fun hlt => absurd hlt hc⟩, fun hlt => absurd hlt hc,
      fun _ => ?_, fun _ ho => ?_⟩
    · rw [hg] at hgr
      by_cases ho : is_request_outdated s now <;> simp [ho] at hgr
    · rw [hg]
      by_cases ho : is_request_outdated s now <;> simp [ho]
    · rw [hg, ho]
      rfl

/-- Witness for C6: a failure at time 0 rejects a request at time 100 even
though the cache is absent, while a request exactly at the boundary 3600
takes the refresh branch. -/
theorem backoff_rejects_iff_within_window_witness :
    get s_backoff 100 env_good 101 =
      { state := s_backoff, response := Response.writeErrorPage 500 default_headers,
        issued := [] } ∧
    gate_action s_backoff 3600 = GateAction.refresh :=
  ⟨(backoff_rejects_iff_within_window s_backoff 100 0 env_good 101 rfl).2.1 (by decide),
   (backoff_rejects_iff_within_window s_backoff 3600 0 env_good 101 rfl).2.2.2
     (by decide) rfl⟩

/-- C8: the fetcher issues exactly one request, carrying the fixed empty
User-Agent identification header, and returns the response as a value for
every network behaviour: an HTTP-level 4xx/5xx and a transport failure are
reported through the error flag of the returned result, never as a raised
exception (the model is a total function). -/
theorem fetch_issues_one_request_and_absorbs_errors (url : String)
    (net : String → HTTPResponse String) :
    (fetch net (make_request url)).2 =
      [{ url := url, headers := [("User-Agent", "")] }] ∧
    (fetch net (make_request url)).1 = net url ∧
    (∀ code (body : Option String), 200 ≤ code → code < 300 →
      HTTPResponse.has_error
        { code := code, body := body, transportError := (none : Option String) } = false) ∧
    (∀ code (body : Option String), 300 ≤ code →
      HTTPResponse.has_error
        { code := code, body := body, transportError := (none : Option String) } = true) ∧
    (∀ code (body : Option String) err,
      HTTPResponse.has_error
        { code := code, body := body, transportError := some err } = true) := by
  refine ⟨rfl, rfl, ?_, ?_, ?_⟩
  · intro code body h1 h2
    unfold HTTPResponse.has_error
    simp
    omega
  · intro code body h1
    unfold HTTPResponse.has_error
    simp
    omega
  · intro code body err
    unfold HTTPResponse.has_error
    simp

/-- Witness for C8 against a network answering 404. -/
theorem fetch_issues_one_request_and_absorbs_errors_witness :
    (fetch (fun _ => { code := 404, body := none, transportError := none })
        (make_request "https://example.org/x")).2 =
      [{ url := "https://example.org/x", headers := [("User-Agent", "")] }] ∧
    HTTPResponse.has_error
      { code := 404, body := (none : Option String), transportError := none } = true :=
  ⟨(fetch_issues_one_request_and_absorbs_errors "https://example.org/x"
      (fun _ => { code := 404, body := none, transportError := none })).1,
   (fetch_issues_one_request_and_absorbs_errors "https://example.org/x"
      (fun _ => { code := 404, body := none, transportError := none })).2.2.2.1
     404 none (by decide)⟩

/-- C3 as stated fails on the code: here all five core fetches succeed and
the chained gradle fetch fails (404, no versionCode line), yet the refresh
does not succeed — it raises, because the f-droid metadata body has no
Build: line and `assemble_release_data` is unguarded. -/
theorem chained_fetch_failure_can_still_raise :
    some_core_fetch_failed env_chained_fail_bad_stable = false ∧
    gradle_extract (env_chained_fail_bad_stable.net (gradle_url "abc123")) =
      Except.error "IndexError" ∧
    (run_refresh env_chained_fail_bad_stable).1 = RefreshOutcome.raised "IndexError" :=
  ⟨rfl, rfl, rfl⟩

/-- C3 (amended): for every refresh in which all five core fetches succeed,
the release page yields a code tag whose chained gradle extraction fails
(failed fetch or unparseable body), and — the amendment — the remaining
bodies parse (repo JSON with its three stat keys, translations JSON with an
int-convertible count, f-droid metadata accepted by the release-data
scraper), the refresh still succeeds and is cached, the derived github
version_code equals the -1 sentinel, and every other field is populated
normally. -/
theorem chained_fetch_failure_degrades_version_code (env : RefreshEnv)
    (s : HandlerState) (tc : Int)
    (h_ok : some_core_fetch_failed env = false)
    (repoJ : Json) (h_repo : env.repoResp.body = some (Except.ok repoJ))
    (sg wt fk : Json)
    (h_sg : repoJ.getKey "stargazers_count" = Except.ok sg)
    (h_wt : repoJ.getKey "subscribers_count" = Except.ok wt)
    (h_fk : repoJ.getKey "forks_count" = Except.ok fk)
    (rpage : ReleasePage)
    (h_rel : env.releaseResp.body = some (Except.ok rpage))
    (git_hash : String) (rest : List (Option String))
    (h_code : rpage.codeTags = some git_hash :: rest)
    (e : String)
    (h_chain : gradle_extract (env.net (gradle_url git_hash)) = Except.error e)
    (cpage : ContributorsPage)
    (h_con : env.contributorsResp.body = some (Except.ok cpage))
    (trJ : Json) (h_tr : env.translationsResp.body = some (Except.ok trJ))
    (cv : Json) (h_cv : trJ.getKey "count" = Except.ok cv)
    (tn : Int) (h_tn : pyIntOfJson cv = Except.ok tn)
    (sb : String) (h_sb : env.stableResp.body = some sb)
    (fd : Json) (h_fd : assemble_release_data sb = Except.ok fd) :
    run_refresh env =
      (RefreshOutcome.success (assembled_doc sg wt fk (contributors_count_val cpage) tn
        (release_github_version_val rpage) (-1) (release_github_apk_val rpage) fd),
       core_request_urls.map make_request ++ [make_request (gradle_url git_hash)]) ∧
    (fetch_data_and_assemble_response s env tc).state =
      { last_request := tc,
        cached_response := some (assembled_doc sg wt fk (contributors_count_val cpage) tn
          (release_github_version_val rpage) (-1) (release_github_apk_val rpage) fd),
        last_failed_request := s.last_failed_request } := by
  have hvcp : release_github_version_code_fetch rpage env.net =
      (Json.int (-1), [make_request (gradle_url git_hash)]) := by
    simp only [release_github_version_code_fetch, h_code, fetch, make_request, h_chain]
  have hbd : build_document repoJ (contributors_count_val cpage) trJ
      (release_github_version_val rpage) (Json.int (-1)) (release_github_apk_val rpage)
      env.stableResp.body =
      Except.ok (assembled_doc sg wt fk (contributors_count_val cpage) tn
        (release_github_version_val rpage) (-1) (release_github_apk_val rpage) fd) := by
    simp only [build_document, h_sg, h_wt, h_fk, h_cv, h_tn, h_sb, h_fd,
      show pyIntOfJson (Json.int (-1)) = Except.ok (-1) from rfl]
  have hasm : run_assembly env =
      (Except.ok (assembled_doc sg wt fk (contributors_count_val cpage) tn
        (release_github_version_val rpage) (-1) (release_github_apk_val rpage) fd),
       [make_request (gradle_url git_hash)]) := by
    simp only [run_assembly, json_loads_body, fromstring_body, h_repo, h_rel, h_con,
      h_tr, hvcp, hbd]
  have hrr : run_refresh env =
      (RefreshOutcome.success (assembled_doc sg wt fk (contributors_count_val cpage) tn
        (release_github_version_val rpage) (-1) (release_github_apk_val rpage) fd),
       core_request_urls.map make_request ++ [make_request (gradle_url git_hash)]) := by
    unfold run_refresh
    rw [(first_failing_none_iff env).mpr h_ok, hasm]
  refine ⟨hrr, ?_⟩
  unfold fetch_data_and_assemble_response
  rw [hrr]
  rfl

/-- Witness for C3 (amended) at the concrete environment whose gradle
fetch answers 404. -/
theorem chained_fetch_failure_degrades_version_code_witness :
    run_refresh env_chained_fail =
      (RefreshOutcome.success (assembled_doc (Json.int 5000) (Json.int 300) (Json.int 700)
        (contributors_count_val { numTags := [some "661"] }) 73
        (release_github_version_val release_page_sample) (-1)
        (release_github_apk_val release_page_sample) fdroid_stable_sample),
       core_request_urls.map make_request ++ [make_request (gradle_url "abc123")]) ∧
    (fetch_data_and_assemble_response s_stale env_chained_fail 7).state =
      { last_request := 7,
        cached_response := some (assembled_doc (Json.int 5000) (Json.int 300) (Json.int 700)
          (contributors_count_val { numTags := [some "661"] }) 73
          (release_github_version_val release_page_sample) (-1)
          (release_github_apk_val release_page_sample) fdroid_stable_sample),
        last_failed_request := s_stale.last_failed_request } :=
  chained_fetch_failure_degrades_version_code env_chained_fail s_stale 7 rfl
    repo_json_sample rfl (Json.int 5000) (Json.int 300) (Json.int 700) rfl rfl rfl
    release_page_sample rfl "abc123" [] rfl "IndexError" rfl
    { numTags := [some "661"] } rfl (Json.obj [("count", Json.int 73)]) rfl
    (Json.int 73) rfl 73 rfl "commit=0.19.8\nBuild:0.19.8,953" rfl
    fdroid_stable_sample rfl

/-- C4 as stated fails on the code: all five core fetches succeed (and the
chained fetch even succeeds), yet assembly raises an uncaught IndexError
because the f-droid metadata body has no Build: line — assembly is not
total on raw bodies. -/
theorem assembly_raises_on_malformed_body :
    some_core_fetch_failed env_bad_stable = false ∧
    (run_refresh env_bad_stable).1 = RefreshOutcome.raised "IndexError" :=
  ⟨rfl, rfl⟩

/-- C4 (amended): only the release-page scrape fields (apk, version,
version code with its chained fetch) and the contributors count are
independently best-effort with the -1 sentinel — for every outcome of
those scrapes and of the chained fetch, assembly still succeeds and
produces a document, provided the unguarded parses succeed: the repo JSON
with its three stat keys, the translations JSON with an int-convertible
count, the f-droid metadata accepted by the release-data scraper, the two
page parses, and the final int conversion of the derived version code.
When one of those unguarded parts fails, assembly raises instead (see the
counterexample theorem) and the exception escapes the refresh. -/
theorem guarded_fields_never_fail_assembly (env : RefreshEnv)
    (h_ok : some_core_fetch_failed env = false)
    (repoJ : Json) (h_repo : env.repoResp.body = some (Except.ok repoJ))
    (sg wt fk : Json)
    (h_sg : repoJ.getKey "stargazers_count" = Except.ok sg)
    (h_wt : repoJ.getKey "subscribers_count" = Except.ok wt)
    (h_fk : repoJ.getKey "forks_count" = Except.ok fk)
    (rpage : ReleasePage)
    (h_rel : env.releaseResp.body = some (Except.ok rpage))
    (cpage : ContributorsPage)
    (h_con : env.contributorsResp.body = some (Except.ok cpage))
    (trJ : Json) (h_tr : env.translationsResp.body = some (Except.ok trJ))
    (cv : Json) (h_cv : trJ.getKey "count" = Except.ok cv)
    (tn : Int) (h_tn : pyIntOfJson cv = Except.ok tn)
    (sb : String) (h_sb : env.stableResp.body = some sb)
    (fd : Json) (h_fd : assemble_release_data sb = Except.ok fd)
    (gvc : Int)
    (h_gvc : pyIntOfJson (release_github_version_code_fetch rpage env.net).1 =
      Except.ok gvc) :
    (run_refresh env).1 = RefreshOutcome.success (assembled_doc sg wt fk
      (contributors_count_val cpage) tn (release_github_version_val rpage) gvc
      (release_github_apk_val rpage) fd) := by
  have hbd : build_document repoJ (contributors_count_val cpage) trJ
      (release_github_version_val rpage)
      (release_github_version_code_fetch rpage env.net).1
      (release_github_apk_val rpage) env.stableResp.body =
      Except.ok (assembled_doc sg wt fk (contributors_count_val cpage) tn
        (release_github_version_val rpage) gvc (release_github_apk_val rpage) fd) := by
    simp only [build_document, h_sg, h_wt, h_fk, h_cv, h_tn, h_gvc, h_sb, h_fd]
  have hasm : run_assembly env =
      (Except.ok (assembled_doc sg wt fk (contributors_count_val cpage) tn
        (release_github_version_val rpage) gvc (release_github_apk_val rpage) fd),
       (release_github_version_code_fetch rpage env.net).2) := by
    simp only [run_assembly, json_loads_body, fromstring_body, h_repo, h_rel, h_con,
      h_tr, hbd]
  unfold run_refresh
  rw [(first_failing_none_iff env).mpr h_ok, hasm]

/-- Witness for C4 (amended) at the healthy concrete environment, where the
guarded fields all derive successfully. -/
theorem guarded_fields_never_fail_assembly_witness :
    (run_refresh env_good).1 = RefreshOutcome.success (assembled_doc
      (Json.int 5000) (Json.int 300) (Json.int 700)
      (contributors_count_val { numTags := [some "661"] }) 73
      (release_github_version_val release_page_sample) 953
      (release_github_apk_val release_page_sample) fdroid_stable_sample) :=
  guarded_fields_never_fail_assembly env_good rfl
    repo_json_sample rfl (Json.int 5000) (Json.int 300) (Json.int 700) rfl rfl rfl
    release_page_sample rfl { numTags := [some "661"] } rfl
    (Json.obj [("count", Json.int 73)]) rfl (Json.int 73) rfl 73 rfl
    "commit=0.19.8\nBuild:0.19.8,953" rfl fdroid_stable_sample rfl 953 rfl

end Api
